import Mathlib

/-!
Verification development for the research-agent front end.

The repository has two source files relevant to the job-submission and
polling logic:

* `app/api/generate-report/route.ts` — the proxy route with a `POST`
  handler (submit a job) and a `GET` handler (query job status).
* the client page component — `handleSubmit`, `startPollingJobStatus`,
  the one-second ticker effect, and the cleanup effect.

Both are shallowly embedded below.  JavaScript numbers are modelled as
exact rationals (`ℚ`), JSON fields that may be absent as `Option`,
JavaScript string truthiness (`s || fallback`, `if (x)`) explicitly, and
every `await` that can throw as an `Except String` outcome supplied by
the environment.  The message carried by a thrown error is the string
the JavaScript runtime would put in `error.message`.
-/

/-- `response.ok` in the fetch API: status in the range 200..299. -/
def respOk (st : Nat) : Bool :=
  200 ≤ st && st < 300

/-- JavaScript truthiness of an optional string field: present and
non-empty. -/
def optTruthy (o : Option String) : Bool :=
  match o with
  | some s => s != ""
  | none => false

/-- `x || fallback` on an optional string field, as in
`errorData.detail || generic`: the fallback is used when the field is
absent or the empty string (both falsy in JavaScript). -/
def truthyOr (o : Option String) (fallback : String) : String :=
  match o with
  | some s => if s = "" then fallback else s
  | none => fallback

/-- Whitespace characters recognised by the JavaScript
`String.prototype.trim`: space, tab, line feed, carriage return,
vertical tab and form feed (the exotic Unicode space code points are
omitted; no claim depends on them). -/
def isJsWhitespace (c : Char) : Bool :=
  c == ' ' || c == '\t' || c == '\n' || c == '\r'
    || c == Char.ofNat 11 || c == Char.ofNat 12

/-- `topic.trim()` of JavaScript: drop whitespace from both ends. -/
def jsTrim (s : String) : String :=
  ⟨(((s.data.dropWhile isJsWhitespace).reverse.dropWhile
      isJsWhitespace).reverse)⟩

/-- Rendering of an optional numeric field inside a template string:
JavaScript prints `undefined` for an absent field. -/
def numField (o : Option Int) : String :=
  match o with
  | some n => toString n
  | none => "undefined"

/-- `ReportResult` of the data model (`ReportResponse` in the client):
topic and Markdown content. -/
structure ReportResponse where
  topic : String
  content : String
deriving DecidableEq, Repr

/-- The parsed `POST` request body as the proxy reads it: only the
`topic` field is inspected (`!body?.topic`).  A `null` body or a body
without a `topic` key is `topic := none`. -/
structure ReqBody where
  topic : Option String
deriving DecidableEq, Repr

/-- The backend `/health` payload as read by the proxy: `server_status`,
`current_load`, `max_capacity`, and the truthiness of `is_warming_up`. -/
structure HealthData where
  server_status : Option String
  current_load : Option Int
  max_capacity : Option Int
  is_warming_up : Bool
deriving DecidableEq, Repr

/-- The backend job-creation response body: `detail` (read on the error
branch) and the job descriptor fields the client reads on success. -/
structure BackendBody where
  detail : Option String
  job_id : Option String
  status : Option String
  report : Option ReportResponse
deriving DecidableEq, Repr

/-- The backend job-status response body: `detail` (error branch),
and `status` / `progress` / `report` / `error` as read by the client
poller.  Per the Job contract `progress` is a number in `[0,1]`,
modelled as an exact rational. -/
structure StatusBody where
  detail : Option String
  status : Option String
  progress : ℚ
  report : Option ReportResponse
  error : Option String
deriving DecidableEq, Repr

/-- The JSON response a proxy handler produces: an HTTP status plus the
fields the handlers ever put in a body.  Fields not set by a branch are
`none`.  `jobData` / `jobStatus` hold a backend body passed through
unchanged on the success paths. -/
structure ApiResponse where
  status : Nat
  detail : Option String := none
  serverStatus : Option String := none
  currentLoad : Option Int := none
  maxCapacity : Option Int := none
  jobData : Option BackendBody := none
  jobStatus : Option StatusBody := none
deriving DecidableEq, Repr

/-- Outcome of one `fetch` followed by `.json()` on its response: the
fetch itself may throw (network error), else it yields an HTTP status
and a body whose JSON parse may in turn throw. -/
def FetchOutcome (α : Type) : Type :=
  Except String (Nat × Except String α)

/-- Environment of one `POST /api/generate-report` request: the parse
outcome of the request body, and the outcomes of the two outbound
fetches (`/health` and the backend `/generate-report`).  Unreached
outcomes are simply ignored by the handler. -/
structure PostEnv where
  bodyParse : Except String ReqBody
  healthFetch : FetchOutcome HealthData
  backendFetch : FetchOutcome BackendBody

/-- The `POST` handler of `route.ts`, traced branch by branch.  Every
`throw` inside the `try` block lands in the final `catch`, which
returns HTTP 500 with `detail` set to the error message. -/
def routePOST (env : PostEnv) : ApiResponse :=
  match env.bodyParse with
  | .error m => { status := 500, detail := some m }
  | .ok body =>
    if ¬ optTruthy body.topic then
      { status := 400, detail := some "Topic is required" }
    else
      match env.healthFetch with
      | .error m => { status := 500, detail := some m }
      | .ok (hst, hbody) =>
        if ¬ respOk hst then
          { status := 503, detail := some "Backend service unavailable",
            serverStatus := some "unavailable" }
        else
          match hbody with
          | .error m => { status := 500, detail := some m }
          | .ok healthData =>
            if healthData.server_status = some "busy" then
              { status := 429,
                detail := some "Server is currently at maximum capacity. Please try again later.",
                serverStatus := some "busy",
                currentLoad := healthData.current_load,
                maxCapacity := healthData.max_capacity }
            else if healthData.is_warming_up then
              { status := 503,
                detail := some "Server is currently warming up. Please try again in 30 seconds.",
                serverStatus := some "warming" }
            else
              match env.backendFetch with
              | .error m => { status := 500, detail := some m }
              | .ok (bst, bbody) =>
                if ¬ respOk bst then
                  match bbody with
                  | .error m => { status := 500, detail := some m }
                  | .ok errorData =>
                    { status := bst,
                      detail := some (truthyOr errorData.detail
                        "Failed to start report generation") }
                else
                  match bbody with
                  | .error m => { status := 500, detail := some m }
                  | .ok jobData =>
                    { status := 200, jobData := some jobData }

/-- Environment of one `GET /api/generate-report?jobId=...` request:
the `jobId` query parameter (`searchParams.get` yields `null` when
absent) and the outcome of the outbound backend `/job-status/` fetch. -/
structure GetEnv where
  jobId : Option String
  backendFetch : FetchOutcome StatusBody

/-- The `GET` handler of `route.ts`.  As in `routePOST`, every throw
inside the `try` lands in the `catch` returning 500 with the error
message as `detail`. -/
def routeGET (env : GetEnv) : ApiResponse :=
  if ¬ optTruthy env.jobId then
    { status := 400, detail := some "Job ID is required" }
  else
    match env.backendFetch with
    | .error m => { status := 500, detail := some m }
    | .ok (bst, bbody) =>
      if ¬ respOk bst then
        match bbody with
        | .error m => { status := 500, detail := some m }
        | .ok errorData =>
          { status := bst,
            detail := some (truthyOr errorData.detail
              "Failed to get job status") }
      else
        match bbody with
        | .error m => { status := 500, detail := some m }
        | .ok jobStatus =>
          { status := 200, jobStatus := some jobStatus }

/-- The client component state: one field per `useState` hook of
`Home`, in source order. -/
structure ClientState where
  status : String
  topic : String
  isLoading : Bool
  error : Option String
  report : Option ReportResponse
  currentStage : Nat
  processingTime : Nat
  jobId : Option String
  serverStatus : Option String
deriving DecidableEq, Repr

/-- Observable effects of one `handleSubmit` invocation: whether the
`POST /api/generate-report` fetch was issued, and whether
`startPollingJobStatus` was called (a poll interval created). -/
structure SubmitEffects where
  requestSent : Bool
  pollStarted : Bool
deriving DecidableEq, Repr

/-- Outcome of the submit fetch as seen by `handleSubmit`: the fetch
may throw, else it yields a status and a body whose JSON parse may
throw.  Error and success bodies are parsed from the same JSON, so one
record carries both the error fields and the job descriptor fields. -/
structure SubmitBody where
  detail : Option String
  serverStatus : Option String
  currentLoad : Option Int
  maxCapacity : Option Int
  job_id : Option String
  status : Option String
  report : Option ReportResponse
deriving DecidableEq, Repr

/-- The message built for `serverStatus === "busy"`:
a template string interpolating `currentLoad` and `maxCapacity`. -/
def busyMessage (currentLoad maxCapacity : Option Int) : String :=
  "Server is at maximum capacity (" ++ numField currentLoad ++ "/"
    ++ numField maxCapacity ++ "). Please try again later."

/-- `handleSubmit` of the client component.  The guard
`if (!topic.trim()) return;` precedes every state write; afterwards the
eight state setters run, the fetch is issued, and the response is
handled.  Every `throw` lands in the `catch`, which sets `error` to the
message and clears `isLoading`. -/
def handleSubmit (s : ClientState)
    (outcome : Except String (Nat × Except String SubmitBody)) :
    ClientState × SubmitEffects :=
  if jsTrim s.topic = "" then (s, ⟨false, false⟩)
  else
    let s1 := { s with isLoading := true, error := none, report := none,
                       processingTime := 0, currentStage := 0,
                       jobId := none, serverStatus := none }
    match outcome with
    | .error m => ({ s1 with error := some m, isLoading := false }, ⟨true, false⟩)
    | .ok (st, body) =>
      if ¬ respOk st then
        match body with
        | .error m =>
          ({ s1 with error := some m, isLoading := false }, ⟨true, false⟩)
        | .ok errorData =>
          if optTruthy errorData.serverStatus then
            let s2 := { s1 with serverStatus := errorData.serverStatus }
            if errorData.serverStatus = some "busy" then
              ({ s2 with error := some (busyMessage errorData.currentLoad
                            errorData.maxCapacity),
                         isLoading := false }, ⟨true, false⟩)
            else if errorData.serverStatus = some "warming" then
              ({ s2 with error := some "Server is warming up. Please try again in 30 seconds.",
                         isLoading := false }, ⟨true, false⟩)
            else if errorData.serverStatus = some "unavailable" then
              ({ s2 with error := some "Research service is currently unavailable. Please try again later.",
                         isLoading := false }, ⟨true, false⟩)
            else
              ({ s2 with error := some (truthyOr errorData.detail
                            "Failed to start report generation"),
                         isLoading := false }, ⟨true, false⟩)
          else
            ({ s1 with error := some (truthyOr errorData.detail
                          "Failed to start report generation"),
                       isLoading := false }, ⟨true, false⟩)
      else
        match body with
        | .error m =>
          ({ s1 with error := some m, isLoading := false }, ⟨true, false⟩)
        | .ok jobData =>
          let s2 := { s1 with jobId := jobData.job_id }
          if jobData.status = some "completed" && jobData.report.isSome then
            ({ s2 with report := jobData.report, isLoading := false },
             ⟨true, false⟩)
          else
            (s2, ⟨true, true⟩)

/-- The progress-to-stage mapping performed on each poll response
(the if-chain on `statusData.progress` inside `startPollingJobStatus`),
as a named function.  Threshold literals are taken as exact rationals. -/
def mapProgressToStage (p : ℚ) : Nat :=
  if p ≤ 2/10 then 0
  else if p ≤ 3/10 then 1
  else if p ≤ 5/10 then 2
  else if p ≤ 7/10 then 3
  else if p ≤ 9/10 then 4
  else if p < 1 then 5
  else 6

/-- One tick of the poll interval created by `startPollingJobStatus`:
the callback body, fed with the outcome of the status fetch.  The
second component records whether `clearInterval(pollInterval)` was
executed during the tick.  A thrown fetch or a thrown `.json()` parse
is swallowed by the inner `catch` (only `console.error`), leaving the
state untouched; note that on a non-ok response the interval is cleared
before `response.json()` is awaited. -/
def pollTick (s : ClientState)
    (outcome : Except String (Nat × Except String StatusBody)) :
    ClientState × Bool :=
  match outcome with
  | .error _ => (s, false)
  | .ok (st, body) =>
    if ¬ respOk st then
      match body with
      | .error _ => (s, true)
      | .ok errorData =>
        ({ s with error := some (truthyOr errorData.detail
                      "Failed to check job status"),
                  isLoading := false }, true)
    else
      match body with
      | .error _ => (s, false)
      | .ok statusData =>
        let s1 := { s with processingTime := s.processingTime + 1,
                           currentStage := mapProgressToStage statusData.progress }
        if statusData.status = some "completed" && statusData.report.isSome then
          ({ s1 with report := statusData.report, isLoading := false }, true)
        else if statusData.status = some "failed" then
          ({ s1 with error := some (truthyOr statusData.error
                        "Failed to generate report"),
                     isLoading := false }, true)
        else
          (s1, false)

/-- One tick of the one-second ticker effect: when loading it
increments `processingTime` and, when the (pre-increment) time is a
positive multiple of 12 and the stage is below `thoughtStages.length - 1
= 6`, advances the stage; when not loading the effect body resets stage
and time. -/
def tickEffect (s : ClientState) : ClientState :=
  if s.isLoading then
    let s1 := { s with processingTime := s.processingTime + 1 }
    if s.processingTime > 0 && s.processingTime % 12 = 0 && s.currentStage < 6 then
      { s1 with currentStage := s.currentStage + 1 }
    else s1
  else
    { s with currentStage := 0, processingTime := 0 }

/-- The render condition of the submit input
(`PlaceholdersAndVanishInput`): the JSX renders it only under
`!isLoading && !report && !error`, so this is the only way a submit
event can be produced by the UI. -/
def submitInputRendered (s : ClientState) : Bool :=
  !s.isLoading && s.report.isNone && s.error.isNone

/-- The interval timers a mounted component may own: the one-second
ticker interval of the first effect, and the three-second poll interval
created by `startPollingJobStatus`. -/
structure Timers where
  ticker : Bool
  poll : Bool
deriving DecidableEq, Repr

/-- Timers after one `handleSubmit` run: a poll interval is created
exactly when `startPollingJobStatus` was called. -/
def timersAfterSubmit (t : Timers) (e : SubmitEffects) : Timers :=
  if e.pollStarted then { t with poll := true } else t

/-- Timers after React unmounts the component: React runs the cleanup
functions the effects returned.  The first effect returns
`() => clearInterval(interval)`, clearing the ticker; the other two
effects return nothing; and the cleanup closure `startPollingJobStatus`
returns is discarded at its call site (`startPollingJobStatus(jobData.job_id);`
ignores the return value), so it is never registered with React and the
poll interval is not cleared. -/
def unmountCleanups (t : Timers) : Timers :=
  { t with ticker := false }

/-- C4: for every progress value, the stage-bucket function maps the
seven ascending brackets to stages 0..6, each boundary inclusive on the
lower side: p ≤ 0.2 gives 0, 0.2 < p ≤ 0.3 gives 1, 0.3 < p ≤ 0.5
gives 2, 0.5 < p ≤ 0.7 gives 3, 0.7 < p ≤ 0.9 gives 4, 0.9 < p < 1.0
gives 5, and p ≥ 1.0 gives 6. -/
theorem stage_bucket_thresholds (p : ℚ) :
    (p ≤ 2/10 → mapProgressToStage p = 0) ∧
    (2/10 < p → p ≤ 3/10 → mapProgressToStage p = 1) ∧
    (3/10 < p → p ≤ 5/10 → mapProgressToStage p = 2) ∧
    (5/10 < p → p ≤ 7/10 → mapProgressToStage p = 3) ∧
    (7/10 < p → p ≤ 9/10 → mapProgressToStage p = 4) ∧
    (9/10 < p → p < 1 → mapProgressToStage p = 5) ∧
    (1 ≤ p → mapProgressToStage p = 6) := by
  unfold mapProgressToStage
  refine ⟨?_, ?_, ?_, ?_, ?_, ?_, ?_⟩
  · intro h; rw [if_pos h]
  · intro h1 h2; rw [if_neg (not_le.mpr h1), if_pos h2]
  · intro h1 h2
    rw [if_neg (not_le.mpr (by linarith)), if_neg (not_le.mpr h1), if_pos h2]
  · intro h1 h2
    rw [if_neg (not_le.mpr (by linarith)), if_neg (not_le.mpr (by linarith)),
      if_neg (not_le.mpr h1), if_pos h2]
  · intro h1 h2
    rw [if_neg (not_le.mpr (by linarith)), if_neg (not_le.mpr (by linarith)),
      if_neg (not_le.mpr (by linarith)), if_neg (not_le.mpr h1), if_pos h2]
  · intro h1 h2
    rw [if_neg (not_le.mpr (by linarith)), if_neg (not_le.mpr (by linarith)),
      if_neg (not_le.mpr (by linarith)), if_neg (not_le.mpr (by linarith)),
      if_neg (not_le.mpr h1), if_pos h2]
  · intro h
    rw [if_neg (not_le.mpr (by linarith)), if_neg (not_le.mpr (by linarith)),
      if_neg (not_le.mpr (by linarith)), if_neg (not_le.mpr (by linarith)),
      if_neg (not_le.mpr (by linarith)), if_neg (not_lt.mpr h)]

/-- Witness for C4 at the boundary values named by the claim:
0.2 maps to 0, 0.21 to 1, 0.7 to 3, 0.71 to 4, 1.0 to 6. -/
theorem stage_bucket_thresholds_witness :
    mapProgressToStage (2/10) = 0 ∧ mapProgressToStage (21/100) = 1 ∧
    mapProgressToStage (7/10) = 3 ∧ mapProgressToStage (71/100) = 4 ∧
    mapProgressToStage 1 = 6 :=
  ⟨(stage_bucket_thresholds (2/10)).1 (by norm_num),
   (stage_bucket_thresholds (21/100)).2.1 (by norm_num) (by norm_num),
   (stage_bucket_thresholds (7/10)).2.2.2.1 (by norm_num) (by norm_num),
   (stage_bucket_thresholds (71/100)).2.2.2.2.1 (by norm_num) (by norm_num),
   (stage_bucket_thresholds 1).2.2.2.2.2.2 (by norm_num)⟩

/-- C6: a thrown status fetch during polling is swallowed by the inner
catch: the client state is returned unchanged (no error set, loading
kept) and the poll interval is not cleared, so polling continues on the
next tick. -/
theorem transient_poll_error_swallowed (s : ClientState) (m : String) :
    pollTick s (.error m) = (s, false) := rfl

/-- C8: submitting with a topic whose trim is empty is a no-op: the
handler returns before any state write, sends no request and starts no
polling. -/
theorem blank_topic_submit_noop (s : ClientState)
    (outcome : Except String (Nat × Except String SubmitBody))
    (h : jsTrim s.topic = "") :
    handleSubmit s outcome = (s, ⟨false, false⟩) := by
  unfold handleSubmit
  rw [if_pos h]

/-- Witness for C8 at a whitespace-only topic. -/
theorem blank_topic_submit_noop_witness :
    handleSubmit
      { status := "Checking...", topic := "   ", isLoading := false,
        error := none, report := none, currentStage := 0,
        processingTime := 0, jobId := none, serverStatus := none }
      (.error "unreached") =
    ({ status := "Checking...", topic := "   ", isLoading := false,
       error := none, report := none, currentStage := 0,
       processingTime := 0, jobId := none, serverStatus := none },
     ⟨false, false⟩) :=
  blank_topic_submit_noop _ _ (by decide)

/-- C1 counterexample: a health payload with both
`server_status: "busy"` and `is_warming_up: true` makes the proxy
return HTTP 429 with serverStatus "busy", not the 503 "warming" the
claim requires for every warming payload. -/
theorem warming_busy_precedence_counterexample :
    (routePOST
      { bodyParse := .ok { topic := some "ai" },
        healthFetch := .ok (200, .ok
          { server_status := some "busy", current_load := some 5,
            max_capacity := some 5, is_warming_up := true }),
        backendFetch := .error "unreached" }).status = 429 ∧
    (routePOST
      { bodyParse := .ok { topic := some "ai" },
        healthFetch := .ok (200, .ok
          { server_status := some "busy", current_load := some 5,
            max_capacity := some 5, is_warming_up := true }),
        backendFetch := .error "unreached" }).serverStatus = some "busy" :=
  ⟨rfl, rfl⟩

/-- C1 amended: a health payload with `is_warming_up` true yields HTTP
503 with serverStatus "warming" whenever `server_status` is not
"busy"; the busy check runs first, so a busy payload is answered 429
even while warming. -/
theorem warming_yields_503 (env : PostEnv) (body : ReqBody) (hst : Nat)
    (h : HealthData)
    (hb : env.bodyParse = .ok body) (ht : optTruthy body.topic = true)
    (hh : env.healthFetch = .ok (hst, .ok h)) (hok : respOk hst = true)
    (hw : h.is_warming_up = true) (hbusy : h.server_status ≠ some "busy") :
    routePOST env =
      { status := 503,
        detail := some "Server is currently warming up. Please try again in 30 seconds.",
        serverStatus := some "warming" } := by
  unfold routePOST
  rw [hb, hh]
  simp [ht, hok, hbusy, hw]

/-- Witness for the amended C1 at a concrete warming health payload. -/
theorem warming_yields_503_witness :
    routePOST
      { bodyParse := .ok { topic := some "ai" },
        healthFetch := .ok (200, .ok
          { server_status := some "ok", current_load := none,
            max_capacity := none, is_warming_up := true }),
        backendFetch := .error "unreached" } =
    { status := 503,
      detail := some "Server is currently warming up. Please try again in 30 seconds.",
      serverStatus := some "warming" } :=
  warming_yields_503 _ { topic := some "ai" } 200
    { server_status := some "ok", current_load := none,
      max_capacity := none, is_warming_up := true }
    rfl rfl rfl rfl rfl (by decide)

/-- C2 counterexample: when the health fetch itself throws, the proxy
answers from the generic catch with HTTP 500 and no serverStatus, not
the 503 with serverStatus "unavailable" the claim requires. -/
theorem health_throw_counterexample :
    (routePOST
      { bodyParse := .ok { topic := some "ai" },
        healthFetch := .error "fetch failed",
        backendFetch := .error "unreached" }).status = 500 ∧
    (routePOST
      { bodyParse := .ok { topic := some "ai" },
        healthFetch := .error "fetch failed",
        backendFetch := .error "unreached" }).serverStatus = none :=
  ⟨rfl, rfl⟩

/-- C2 amended: a health check answered with a non-success HTTP status
yields 503 with serverStatus "unavailable"; a health fetch that throws
is handled by the generic catch instead, yielding 500 with the thrown
message and no serverStatus. -/
theorem backend_unavailable_paths (env : PostEnv) (body : ReqBody)
    (hb : env.bodyParse = .ok body) (ht : optTruthy body.topic = true) :
    (∀ m, env.healthFetch = .error m →
        routePOST env = { status := 500, detail := some m }) ∧
    (∀ hst hbody, env.healthFetch = .ok (hst, hbody) → respOk hst = false →
        routePOST env =
          { status := 503,
            detail := some "Backend service unavailable",
            serverStatus := some "unavailable" }) := by
  constructor
  · intro m hm
    unfold routePOST
    rw [hb, hm]
    simp [ht]
  · intro hst hbody hh hok
    unfold routePOST
    rw [hb, hh]
    simp [ht, hok]

/-- Witness for the amended C2: both health-check failure modes at
concrete inputs. -/
theorem backend_unavailable_paths_witness :
    routePOST
      { bodyParse := .ok { topic := some "ai" },
        healthFetch := .error "fetch failed",
        backendFetch := .error "unreached" } =
      { status := 500, detail := some "fetch failed" } ∧
    routePOST
      { bodyParse := .ok { topic := some "ai" },
        healthFetch := .ok (500, .error "unreached"),
        backendFetch := .error "unreached" } =
      { status := 503, detail := some "Backend service unavailable",
        serverStatus := some "unavailable" } :=
  ⟨(backend_unavailable_paths _ { topic := some "ai" } rfl rfl).1
      "fetch failed" rfl,
   (backend_unavailable_paths _ { topic := some "ai" } rfl rfl).2
      500 (.error "unreached") rfl rfl⟩

/-- C7 counterexample: the claim fails twice on the code.  First, a
backend failure body carrying `detail: ""` does carry a detail field,
yet `errorData.detail || generic` substitutes the generic message.
Second, a backend failure response whose body is not parseable JSON
makes `response.json()` throw, so the proxy answers 500 instead of the
backend status code. -/
theorem detail_passthrough_counterexample :
    (routePOST
      { bodyParse := .ok { topic := some "ai" },
        healthFetch := .ok (200, .ok
          { server_status := some "ok", current_load := none,
            max_capacity := none, is_warming_up := false }),
        backendFetch := .ok (422, .ok
          { detail := some "", job_id := none, status := none,
            report := none }) }).status = 422 ∧
    (routePOST
      { bodyParse := .ok { topic := some "ai" },
        healthFetch := .ok (200, .ok
          { server_status := some "ok", current_load := none,
            max_capacity := none, is_warming_up := false }),
        backendFetch := .ok (422, .ok
          { detail := some "", job_id := none, status := none,
            report := none }) }).detail =
      some "Failed to start report generation" ∧
    (routePOST
      { bodyParse := .ok { topic := some "ai" },
        healthFetch := .ok (200, .ok
          { server_status := some "ok", current_load := none,
            max_capacity := none, is_warming_up := false }),
        backendFetch := .ok (422, .error "Unexpected token") }).status
      = 500 :=
  ⟨rfl, rfl, rfl⟩

/-- C7 amended: on a backend failure response whose body parses as
JSON, both handlers return the backend status code unchanged; the
backend `detail` is passed through verbatim when it is a non-empty
string, and the generic message is substituted when `detail` is absent
or empty (a failure body that does not parse as JSON instead hits the
generic catch, HTTP 500). -/
theorem error_detail_propagation (penv : PostEnv) (genv : GetEnv)
    (body : ReqBody) (hst : Nat) (h : HealthData) (bst : Nat)
    (eb : BackendBody) (gst : Nat) (gb : StatusBody)
    (hb : penv.bodyParse = .ok body) (ht : optTruthy body.topic = true)
    (hh : penv.healthFetch = .ok (hst, .ok h)) (hok : respOk hst = true)
    (hbusy : h.server_status ≠ some "busy") (hw : h.is_warming_up = false)
    (hbf : penv.backendFetch = .ok (bst, .ok eb)) (hbok : respOk bst = false)
    (hj : optTruthy genv.jobId = true)
    (hgf : genv.backendFetch = .ok (gst, .ok gb)) (hgok : respOk gst = false) :
    ((routePOST penv).status = bst ∧
     (∀ d, eb.detail = some d → d ≠ "" → (routePOST penv).detail = some d) ∧
     (optTruthy eb.detail = false →
       (routePOST penv).detail = some "Failed to start report generation")) ∧
    ((routeGET genv).status = gst ∧
     (∀ d, gb.detail = some d → d ≠ "" → (routeGET genv).detail = some d) ∧
     (optTruthy gb.detail = false →
       (routeGET genv).detail = some "Failed to get job status")) := by
  have hpost : routePOST penv =
      { status := bst,
        detail := some (truthyOr eb.detail
          "Failed to start report generation") } := by
    unfold routePOST
    rw [hb, hh, hbf]
    simp [ht, hok, hbusy, hw, hbok]
  have hget : routeGET genv =
      { status := gst,
        detail := some (truthyOr gb.detail "Failed to get job status") } := by
    unfold routeGET
    rw [hgf]
    simp [hj, hgok]
  refine ⟨⟨by rw [hpost], ?_, ?_⟩, ⟨by rw [hget], ?_, ?_⟩⟩
  · intro d hd hne
    rw [hpost]
    simp [truthyOr, hd, hne]
  · intro hfalsy
    rw [hpost]
    rcases hd : eb.detail with _ | d
    · simp [truthyOr, hd]
    · rw [hd] at hfalsy
      simp [optTruthy] at hfalsy
      simp [truthyOr, hd, hfalsy]
  · intro d hd hne
    rw [hget]
    simp [truthyOr, hd, hne]
  · intro hfalsy
    rw [hget]
    rcases hd : gb.detail with _ | d
    · simp [truthyOr, hd]
    · rw [hd] at hfalsy
      simp [optTruthy] at hfalsy
      simp [truthyOr, hd, hfalsy]

/-- Witness for the amended C7: concrete POST and GET environments
with a backend failure carrying a non-empty detail. -/
theorem error_detail_propagation_witness :
    (routePOST
      { bodyParse := .ok { topic := some "ai" },
        healthFetch := .ok (200, .ok
          { server_status := some "ok", current_load := none,
            max_capacity := none, is_warming_up := false }),
        backendFetch := .ok (422, .ok
          { detail := some "bad topic", job_id := none, status := none,
            report := none }) }).detail = some "bad topic" ∧
    (routeGET
      { jobId := some "job-1",
        backendFetch := .ok (404, .ok
          { detail := some "job not found", status := none, progress := 0,
            report := none, error := none }) }).status = 404 :=
  have H := error_detail_propagation
    { bodyParse := .ok { topic := some "ai" },
      healthFetch := .ok (200, .ok
        { server_status := some "ok", current_load := none,
          max_capacity := none, is_warming_up := false }),
      backendFetch := .ok (422, .ok
        { detail := some "bad topic", job_id := none, status := none,
          report := none }) }
    { jobId := some "job-1",
      backendFetch := .ok (404, .ok
        { detail := some "job not found", status := none, progress := 0,
          report := none, error := none }) }
    { topic := some "ai" } 200
    { server_status := some "ok", current_load := none,
      max_capacity := none, is_warming_up := false }
    422
    { detail := some "bad topic", job_id := none, status := none,
      report := none }
    404
    { detail := some "job not found", status := none, progress := 0,
      report := none, error := none }
    rfl rfl rfl rfl (by decide) rfl rfl rfl rfl rfl rfl
  ⟨H.1.2.1 "bad topic" rfl (by decide), H.2.1⟩

/-- C10: every exception raised while a handler processes a request is
converted by the enclosing catch into HTTP 500 with a `detail` body; in
particular a POST body that is not valid JSON yields 500 with the parse
message, not the 400 reserved for a missing topic, and a thrown fetch
or an unparseable backend body yields 500 on either handler. -/
theorem handlers_total_on_throw (penv : PostEnv) (genv : GetEnv)
    (m : String) :
    (penv.bodyParse = .error m →
      routePOST penv = { status := 500, detail := some m } ∧
      (routePOST penv).status ≠ 400) ∧
    (∀ body, penv.bodyParse = .ok body → optTruthy body.topic = true →
      penv.healthFetch = .error m →
      routePOST penv = { status := 500, detail := some m }) ∧
    (∀ body hst, penv.bodyParse = .ok body → optTruthy body.topic = true →
      penv.healthFetch = .ok (hst, .error m) → respOk hst = true →
      routePOST penv = { status := 500, detail := some m }) ∧
    (∀ body hst h, penv.bodyParse = .ok body →
      optTruthy body.topic = true →
      penv.healthFetch = .ok (hst, .ok h) → respOk hst = true →
      h.server_status ≠ some "busy" → h.is_warming_up = false →
      penv.backendFetch = .error m →
      routePOST penv = { status := 500, detail := some m }) ∧
    (∀ body hst h bst, penv.bodyParse = .ok body →
      optTruthy body.topic = true →
      penv.healthFetch = .ok (hst, .ok h) → respOk hst = true →
      h.server_status ≠ some "busy" → h.is_warming_up = false →
      penv.backendFetch = .ok (bst, .error m) →
      routePOST penv = { status := 500, detail := some m }) ∧
    (optTruthy genv.jobId = true → genv.backendFetch = .error m →
      routeGET genv = { status := 500, detail := some m }) ∧
    (∀ gst, optTruthy genv.jobId = true →
      genv.backendFetch = .ok (gst, .error m) →
      routeGET genv = { status := 500, detail := some m }) := by
  refine ⟨?_, ?_, ?_, ?_, ?_, ?_, ?_⟩
  · intro hp
    have h1 : routePOST penv = { status := 500, detail := some m } := by
      unfold routePOST
      rw [hp]
    refine ⟨h1, ?_⟩
    rw [h1]
    show (500 : Nat) ≠ 400
    decide
  · intro body hb ht hh
    unfold routePOST
    rw [hb, hh]
    simp [ht]
  · intro body hst hb ht hh hok
    unfold routePOST
    rw [hb, hh]
    simp [ht, hok]
  · intro body hst h hb ht hh hok hbusy hw hbf
    unfold routePOST
    rw [hb, hh, hbf]
    simp [ht, hok, hbusy, hw]
  · intro body hst h bst hb ht hh hok hbusy hw hbf
    unfold routePOST
    rw [hb, hh, hbf]
    by_cases hbok : respOk bst = true <;> simp [ht, hok, hbusy, hw, hbok]
  · intro hj hg
    unfold routeGET
    rw [hg]
    simp [hj]
  · intro gst hj hg
    unfold routeGET
    rw [hg]
    by_cases hgok : respOk gst = true <;> simp [hj, hgok]

/-- Witness for C10: an invalid POST body at a concrete parse message
yields 500, not 400, and a thrown backend job-creation fetch yields 500
with the thrown message. -/
theorem handlers_total_on_throw_witness :
    (routePOST
      { bodyParse := .error "Unexpected token",
        healthFetch := .error "unreached",
        backendFetch := .error "unreached" } =
      { status := 500, detail := some "Unexpected token" } ∧
    (routePOST
      { bodyParse := .error "Unexpected token",
        healthFetch := .error "unreached",
        backendFetch := .error "unreached" }).status ≠ 400) ∧
    routePOST
      { bodyParse := .ok { topic := some "ai" },
        healthFetch := .ok (200, .ok
          { server_status := some "ok", current_load := none,
            max_capacity := none, is_warming_up := false }),
        backendFetch := .error "fetch failed" } =
      { status := 500, detail := some "fetch failed" } :=
  ⟨(handlers_total_on_throw
      { bodyParse := .error "Unexpected token",
        healthFetch := .error "unreached",
        backendFetch := .error "unreached" }
      { jobId := some "j", backendFetch := .error "x" }
      "Unexpected token").1 rfl,
   (handlers_total_on_throw
      { bodyParse := .ok { topic := some "ai" },
        healthFetch := .ok (200, .ok
          { server_status := some "ok", current_load := none,
            max_capacity := none, is_warming_up := false }),
        backendFetch := .error "fetch failed" }
      { jobId := some "j", backendFetch := .error "x" }
      "fetch failed").2.2.2.1
      { topic := some "ai" } 200
      { server_status := some "ok", current_load := none,
        max_capacity := none, is_warming_up := false }
      rfl rfl rfl rfl (by decide) rfl rfl⟩

/-- C3: evaluation of the code at the failing scenario.  A successful
submit that returns only a job id calls `startPollingJobStatus`,
creating the poll interval; unmounting then runs only the cleanups the
effects registered (the ticker intervals clearInterval), because the
cleanup closure returned by `startPollingJobStatus` is discarded at its
call site.  The poll interval therefore survives unmount and keeps
issuing GetStatus calls, contradicting the claim and the comments in
the source. -/
theorem poll_interval_survives_unmount :
    (handleSubmit
      { status := "Checking...", topic := "quantum computing",
        isLoading := false, error := none, report := none,
        currentStage := 0, processingTime := 0, jobId := none,
        serverStatus := none }
      (.ok (200, .ok
        { detail := none, serverStatus := none, currentLoad := none,
          maxCapacity := none, job_id := some "job-1",
          status := some "queued", report := none }))).2.pollStarted = true ∧
    (unmountCleanups (timersAfterSubmit { ticker := true, poll := false }
      (handleSubmit
        { status := "Checking...", topic := "quantum computing",
          isLoading := false, error := none, report := none,
          currentStage := 0, processingTime := 0, jobId := none,
          serverStatus := none }
        (.ok (200, .ok
          { detail := none, serverStatus := none, currentLoad := none,
            maxCapacity := none, job_id := some "job-1",
            status := some "queued", report := none }))).2)).poll = true ∧
    (unmountCleanups (timersAfterSubmit { ticker := true, poll := false }
      (handleSubmit
        { status := "Checking...", topic := "quantum computing",
          isLoading := false, error := none, report := none,
          currentStage := 0, processingTime := 0, jobId := none,
          serverStatus := none }
        (.ok (200, .ok
          { detail := none, serverStatus := none, currentLoad := none,
            maxCapacity := none, job_id := some "job-1",
            status := some "queued", report := none }))).2)).ticker = false := by
  refine ⟨?_, ?_, ?_⟩ <;> decide

/-- C5 counterexample: two consecutive poll responses, the first with
progress 0.8 (stage 4), the second with progress 0.1; the client sets
the displayed stage back to 0, regressing it. -/
theorem stage_regression_counterexample :
    ((pollTick
      { status := "Checking...", topic := "ai", isLoading := true,
        error := none, report := none, currentStage := 0,
        processingTime := 0, jobId := some "job-1", serverStatus := none }
      (.ok (200, .ok
        { detail := none, status := some "running", progress := 8/10,
          report := none, error := none }))).1.currentStage = 4) ∧
    ((pollTick
      (pollTick
        { status := "Checking...", topic := "ai", isLoading := true,
          error := none, report := none, currentStage := 0,
          processingTime := 0, jobId := some "job-1", serverStatus := none }
        (.ok (200, .ok
          { detail := none, status := some "running", progress := 8/10,
            report := none, error := none }))).1
      (.ok (200, .ok
        { detail := none, status := some "running", progress := 1/10,
          report := none, error := none }))).1.currentStage = 0) := by
  have h1 : mapProgressToStage (8/10) = 4 := by norm_num [mapProgressToStage]
  have h2 : mapProgressToStage (1/10) = 0 := by norm_num [mapProgressToStage]
  refine ⟨?_, ?_⟩
  · simp [pollTick, respOk, h1]
  · simp [pollTick, respOk, h1]
    norm_num [mapProgressToStage]

/-- C5 amended: the two progress signals are not reconciled.  The local
ticker only ever advances the displayed stage while loading, but every
successful parsed poll response overwrites the stage with the bucket of
the reported progress, independent of the stage displayed before, so a
response reporting lower progress does regress the displayed stage. -/
theorem stage_signals_unreconciled (s : ClientState) (sd : StatusBody)
    (st : Nat) (hok : respOk st = true) :
    (pollTick s (.ok (st, .ok sd))).1.currentStage =
      mapProgressToStage sd.progress ∧
    (s.isLoading = true →
      s.currentStage ≤ (tickEffect s).currentStage) := by
  constructor
  · simp only [pollTick]
    rw [if_neg (not_not_intro hok)]
    split
    · rfl
    · split
      · rfl
      · rfl
  · intro hl
    unfold tickEffect
    rw [if_pos hl]
    split
    · exact Nat.le_succ _
    · exact Nat.le_refl _

/-- Witness for the amended C5 at a concrete state and response. -/
theorem stage_signals_unreconciled_witness :
    (pollTick
      { status := "Checking...", topic := "ai", isLoading := true,
        error := none, report := none, currentStage := 4,
        processingTime := 7, jobId := some "job-1", serverStatus := none }
      (.ok (200, .ok
        { detail := none, status := some "running", progress := 1/10,
          report := none, error := none }))).1.currentStage =
      mapProgressToStage (1/10) ∧
    ({ status := "Checking...", topic := "ai", isLoading := true,
       error := none, report := none, currentStage := 4,
       processingTime := 7, jobId := some "job-1",
       serverStatus := none } : ClientState).currentStage ≤
      (tickEffect
        { status := "Checking...", topic := "ai", isLoading := true,
          error := none, report := none, currentStage := 4,
          processingTime := 7, jobId := some "job-1",
          serverStatus := none }).currentStage :=
  have H := stage_signals_unreconciled
    { status := "Checking...", topic := "ai", isLoading := true,
      error := none, report := none, currentStage := 4,
      processingTime := 7, jobId := some "job-1", serverStatus := none }
    { detail := none, status := some "running", progress := 1/10,
      report := none, error := none }
    200 rfl
  ⟨H.1, H.2 rfl⟩

/-- C9 counterexample: `handleSubmit` performs no in-flight check, so
invoking it while a previous submission is loading and the topic is
non-blank does send a second request. -/
theorem submit_inflight_counterexample :
    (handleSubmit
      { status := "Checking...", topic := "ai", isLoading := true,
        error := none, report := none, currentStage := 0,
        processingTime := 3, jobId := none, serverStatus := none }
      (.error "second request")).2.requestSent = true := by
  decide

/-- C9 amended: mutual exclusion of submissions is enforced by
rendering, not by the handler: the submit input is rendered only under
`!isLoading && !report && !error`, so while a submission is in flight
the UI cannot produce a second submit event; the handler itself checks
only the topic. -/
theorem submit_input_hidden_while_loading (s : ClientState)
    (h : s.isLoading = true) : submitInputRendered s = false := by
  unfold submitInputRendered
  rw [h]
  rfl

/-- Witness for the amended C9 at a concrete loading state. -/
theorem submit_input_hidden_while_loading_witness :
    submitInputRendered
      { status := "Checking...", topic := "ai", isLoading := true,
        error := none, report := none, currentStage := 0,
        processingTime := 3, jobId := some "job-1",
        serverStatus := none } = false :=
  submit_input_hidden_while_loading _ rfl
